import Mathlib

/-!
# Verification of the fs-gate agricultural gateway (src/server.ts)

A shallow embedding of the tool handlers, the tool registry and the two
protocol front-ends (REST `/tools/{name}` and the JSON-RPC `/mcp` dispatcher)
of the fs-gate server, together with proofs of the specified properties.

JavaScript/JSON runtime values are modelled by the inductive type `JS`.
`undefined` is a first-class value (`JS.undef`); property access on `null` or
`undefined` raises a `TypeError`, modelled with `Except String`.  Numbers are
modelled as integers (no floating-point arithmetic occurs in the embedded
code; the only numeric operations are defaulting, stringification and one
integer comparison).  Strings are sequences of characters; JavaScript counts
UTF-16 code units where Lean counts code points, which agrees on all inputs
considered here.  Platform error-message texts (e.g. the wording of a V8
`TypeError`) are abstracted: the embedding only relies on which operations
throw, never on the exact platform wording.
-/

/-- A JavaScript runtime value as it can occur in the embedded server code:
`undefined`, `null`, booleans, (integer) numbers, strings, arrays and plain
objects (ordered field lists, as produced by `JSON.parse`). -/
inductive JS where
  | undef : JS
  | null : JS
  | bool (b : Bool) : JS
  | num (n : Int) : JS
  | str (s : String) : JS
  | arr (elems : List JS) : JS
  | obj (fields : List (String × JS)) : JS

/-- JavaScript truthiness of a value (ToBoolean).  `undefined`, `null`,
`false`, `0` and the empty string are falsy; arrays and objects are always
truthy.  (`NaN` is not modelled; no embedded operation produces it.) -/
def JS.truthy : JS → Bool
  | .undef => false
  | .null => false
  | .bool b => b
  | .num n => n ≠ 0
  | .str s => s ≠ ""
  | .arr _ => true
  | .obj _ => true

/-- The JavaScript nullish-coalescing operator `v ?? d`: `d` exactly when `v`
is `undefined` or `null`, otherwise `v`. -/
def jsNullish (v d : JS) : JS :=
  match v with
  | .undef => d
  | .null => d
  | v => v

/-- The JavaScript logical-or `v || d` (on values): `v` when `v` is truthy,
otherwise `d`. -/
def jsOr (v d : JS) : JS :=
  if v.truthy then v else d

mutual

/-- JavaScript `String(v)` conversion for the values modelled here.  Arrays
stringify as their elements joined by commas (with `null`/`undefined`
elements rendered empty), plain objects as `[object Object]`. -/
def jsToString : JS → String
  | .undef => "undefined"
  | .null => "null"
  | .bool b => if b then "true" else "false"
  | .num n => toString n
  | .str s => s
  | .arr xs => String.intercalate "," (jsToStringElems xs)
  | .obj _ => "[object Object]"

/-- `String()` conversion of array elements for `Array.prototype.join`:
`null` and `undefined` elements render as the empty string. -/
def jsToStringElems : List JS → List String
  | [] => []
  | .undef :: xs => "" :: jsToStringElems xs
  | .null :: xs => "" :: jsToStringElems xs
  | x :: xs => jsToString x :: jsToStringElems xs

end

/-- Field lookup in an object field list, with JavaScript absent-property
semantics: a missing key reads as `undefined`. -/
def objGet (fields : List (String × JS)) (k : String) : JS :=
  (fields.lookup k).getD JS.undef

/-- JavaScript property read `v[k]` (as used by the embedded code).  Reading
a property of `null` or `undefined` throws a `TypeError`; strings and arrays
expose `length`; objects look the key up in their fields; other primitives
have no own properties and read as `undefined`.  (Prototype methods such as
`substring` are function values and are handled at their call sites.) -/
def getProp (v : JS) (k : String) : Except String JS :=
  match v with
  | .undef => .error ("TypeError: Cannot read properties of undefined (reading " ++ k ++ ")")
  | .null => .error ("TypeError: Cannot read properties of null (reading " ++ k ++ ")")
  | .str s => if k = "length" then .ok (.num s.length) else .ok .undef
  | .arr xs => if k = "length" then .ok (.num xs.length) else .ok .undef
  | .obj fields => .ok (objGet fields k)
  | _ => .ok JS.undef

/-- Whether a value is a plain object. -/
def JS.isObj : JS → Bool
  | .obj _ => true
  | _ => false

/-- Whether a value is `undefined`. -/
def JS.isUndef : JS → Bool
  | .undef => true
  | _ => false

/-- Strict equality (`===`) of a value against a string literal, as used by
`switch (request.method)`: only the equal string matches. -/
def JS.isStrEq : JS → String → Bool
  | .str s, t => s = t
  | _, _ => false

/-! ## Platform string utilities: URL encoding and JSON serialization -/

/-- One hexadecimal digit (uppercase), for percent-encoding. -/
def hexDigit (n : Nat) : String :=
  String.singleton (Char.ofNat (if n < 10 then 48 + n else 55 + (n % 16)))

/-- The UTF-8 bytes of a character (as numbers), by the standard layout. -/
def utf8Bytes (c : Char) : List Nat :=
  let n := c.toNat
  if n < 128 then [n]
  else if n < 2048 then [192 + n / 64, 128 + n % 64]
  else if n < 65536 then [224 + n / 4096, 128 + (n / 64) % 64, 128 + n % 64]
  else [240 + n / 262144, 128 + (n / 4096) % 64, 128 + (n / 64) % 64, 128 + n % 64]

/-- Percent-encoding of one character as the `%XX` codes of its UTF-8 bytes. -/
def percentEncodeChar (c : Char) : String :=
  ((utf8Bytes c).map
    (fun b => "%" ++ hexDigit (b / 16) ++ hexDigit (b % 16))).foldl
    (fun acc s => acc ++ s) ""

/-- Characters `URLSearchParams.toString` leaves unencoded
(`application/x-www-form-urlencoded`: alphanumerics and `*-._`). -/
def isFormSafeChar (c : Char) : Bool :=
  c.isAlphanum || c = '*' || c = '-' || c = '.' || c = '_'

/-- `application/x-www-form-urlencoded` encoding of one string, as applied by
`URLSearchParams.toString`: spaces become `+`, safe characters pass through,
everything else is percent-encoded. -/
def formEncodeStr (s : String) : String :=
  s.data.foldl (fun acc c =>
    acc ++ (if c = ' ' then "+"
            else if isFormSafeChar c then String.singleton c
            else percentEncodeChar c)) ""

/-- `URLSearchParams.toString`: the entries as `k=v` pairs joined by `&`,
keys and values form-encoded, in insertion order. -/
def formEncodeParams (ps : List (String × String)) : String :=
  String.intercalate "&" (ps.map (fun p => formEncodeStr p.1 ++ "=" ++ formEncodeStr p.2))

/-- Characters `encodeURIComponent` leaves unencoded (unreserved marks). -/
def isUriComponentSafeChar (c : Char) : Bool :=
  c.isAlphanum || c = '-' || c = '_' || c = '.' || c = '!' || c = '~' ||
    c = '*' || c = Char.ofNat 39 || c = '(' || c = ')'

/-- JavaScript `encodeURIComponent`. -/
def encodeURIComponent (s : String) : String :=
  s.data.foldl (fun acc c =>
    acc ++ (if isUriComponentSafeChar c then String.singleton c else percentEncodeChar c)) ""

/-- JSON string-literal escaping for `JSON.stringify` (quotes, backslash and
the common control characters; other characters pass through). -/
def jsonEscape (s : String) : String :=
  s.data.foldl (fun acc c =>
    acc ++ (if c = '"' then "\\\""
            else if c = '\\' then "\\\\"
            else if c = '\n' then "\\n"
            else if c = '\r' then "\\r"
            else if c = '\t' then "\\t"
            else String.singleton c)) ""

/-- A JSON string literal for `s`. -/
def jsonQuote (s : String) : String := "\"" ++ jsonEscape s ++ "\""

mutual

/-- Compact `JSON.stringify(v)`.  `undefined` has no JSON representation
(`none`); inside arrays it renders as `null`, inside objects the field is
dropped. -/
def jsonStringify : JS → Option String
  | .undef => none
  | .null => some "null"
  | .bool b => some (if b then "true" else "false")
  | .num n => some (toString n)
  | .str s => some (jsonQuote s)
  | .arr xs => some ("[" ++ String.intercalate "," (jsonStringifyElems xs) ++ "]")
  | .obj fs => some ("\x7b" ++ String.intercalate "," (jsonStringifyFields fs) ++ "\x7d")

/-- Array elements under compact `JSON.stringify` (unrepresentable elements
render as `null`). -/
def jsonStringifyElems : List JS → List String
  | [] => []
  | x :: xs => ((jsonStringify x).getD "null") :: jsonStringifyElems xs

/-- Object fields under compact `JSON.stringify` (fields with
unrepresentable values are dropped). -/
def jsonStringifyFields : List (String × JS) → List String
  | [] => []
  | (k, v) :: fs =>
    match jsonStringify v with
    | none => jsonStringifyFields fs
    | some s => (jsonQuote k ++ ":" ++ s) :: jsonStringifyFields fs

end

/-- `n` spaces, for pretty-printed JSON indentation. -/
def jsonPad (n : Nat) : String := String.mk (List.replicate n ' ')

mutual

/-- Pretty `JSON.stringify(v, null, 2)` at nesting depth `ind` (the current
indentation width).  Mirrors the V8 layout: empty arrays and objects print
inline, non-empty ones one entry per line, indented two further spaces, and
object fields print as `"key": value`. -/
def jsonStringify2 : Nat → JS → Option String
  | _, .undef => none
  | _, .null => some "null"
  | _, .bool b => some (if b then "true" else "false")
  | _, .num n => some (toString n)
  | _, .str s => some (jsonQuote s)
  | ind, .arr xs =>
    match jsonStringify2Elems (ind + 2) xs with
    | [] => some "[]"
    | es => some ("[\n" ++ String.intercalate ",\n" (es.map (fun e => jsonPad (ind + 2) ++ e)) ++
        "\n" ++ jsonPad ind ++ "]")
  | ind, .obj fs =>
    match jsonStringify2Fields (ind + 2) fs with
    | [] => some "\x7b\x7d"
    | es => some ("\x7b\n" ++ String.intercalate ",\n" (es.map (fun e => jsonPad (ind + 2) ++ e)) ++
        "\n" ++ jsonPad ind ++ "\x7d")

/-- Array elements under pretty `JSON.stringify` (unrepresentable elements
render as `null`). -/
def jsonStringify2Elems : Nat → List JS → List String
  | _, [] => []
  | ind, x :: xs => ((jsonStringify2 ind x).getD "null") :: jsonStringify2Elems ind xs

/-- Object fields under pretty `JSON.stringify` (fields with unrepresentable
values are dropped). -/
def jsonStringify2Fields : Nat → List (String × JS) → List String
  | _, [] => []
  | ind, (k, v) :: fs =>
    match jsonStringify2 ind v with
    | none => jsonStringify2Fields ind fs
    | some s => (jsonQuote k ++ ": " ++ s) :: jsonStringify2Fields ind fs

end

/-! ## Process environment, outbound fetch model and handler outcomes

The handlers read `process.env` and call the global `fetch`; the embedding
threads both explicitly: an `Env` record of the configuration values and a
`FetchFn` oracle standing for the network.  Each handler additionally returns
the list of outbound requests it issued, so that "zero network calls" is a
statement about the handler itself. -/

/-- The configuration the server reads from `process.env`.  A `none` entry is
an unset environment variable (reads as `undefined`). -/
structure Env where
  DATAGOVIN_API_KEY : Option String
  DATAGOVIN_RESOURCE_ID : Option String
  EXA_API_KEY : Option String

/-- JavaScript truthiness of an environment variable: unset (`undefined`)
and the empty string are falsy. -/
def envVarTruthy : Option String → Bool
  | none => false
  | some s => s ≠ ""

/-- One outbound HTTP request as issued through `fetch`. -/
structure FetchRequest where
  url : String
  method : String
  headers : List (String × String)
  body : Option String

/-- The response the network returns for a request: the HTTP status, the full
body text (`await res.text()`), and the outcome of `JSON.parse` on that text
(`.error` carries the message of the `SyntaxError` the parse would throw).
`json` is determined by `text`; it is carried alongside because the embedding
does not re-implement a JSON parser. -/
structure FetchResponse where
  status : Nat
  text : String
  json : Except String JS

/-- `Response.ok` (node-fetch): status in the 200–299 range. -/
def FetchResponse.ok (r : FetchResponse) : Bool :=
  200 ≤ r.status && r.status ≤ 299

/-- The network oracle a handler runs against. -/
def FetchFn : Type := FetchRequest → FetchResponse

/-- The outcome a tool handler resolves with.  `ok d` stands for the literal
object `{success: true, data: d}`; `err m` for `{error: m}`.  Every return
site of both handlers produces exactly one of these two shapes. -/
inductive HandlerResult where
  | ok (data : JS) : HandlerResult
  | err (msg : String) : HandlerResult

/-- The JSON body a `HandlerResult` serializes to (what the REST front-end
writes with `JSON.stringify(result)`). -/
def HandlerResult.toJS : HandlerResult → JS
  | .ok d => .obj [("success", .bool true), ("data", d)]
  | .err m => .obj [("error", .str m)]

/-- A tool handler: parameters, configuration and network in, outcome plus
the list of outbound requests issued out. -/
def ToolHandler : Type := JS → Env → FetchFn → HandlerResult × List FetchRequest

/-! ## The crop-price handler (`cropPriceHandler`, server.ts lines 13–77) -/

/-- The `URLSearchParams` the crop-price handler builds (server.ts lines
24–38): destructure `state`/`district`/`commodity`, default `limit`/`offset`
with `??` to 50/0, then `api-key`, `format`, `limit`, `offset` always, and a
`filters[...]` entry for each filter input that is truthy (`if (state) ...`).
Values are `String(...)`-converted as `URLSearchParams` does.  Throws
(`.error`) only when `params` is `null`/`undefined`. -/
def cropPriceQueryParams (params : JS) (apiKey : String) :
    Except String (List (String × String)) := do
  let state ← getProp params "state"
  let district ← getProp params "district"
  let commodity ← getProp params "commodity"
  let limit := jsNullish (← getProp params "limit") (.num 50)
  let offset := jsNullish (← getProp params "offset") (.num 0)
  pure ([("api-key", apiKey), ("format", "json"),
         ("limit", jsToString limit), ("offset", jsToString offset)]
    ++ (if state.truthy then [("filters[State]", jsToString state)] else [])
    ++ (if district.truthy then [("filters[District]", jsToString district)] else [])
    ++ (if commodity.truthy then [("filters[Commodity]", jsToString commodity)] else []))

/-- The URL the crop-price handler fetches (server.ts lines 29, 40):
`https://api.data.gov.in/resource/${encodeURIComponent(RESOURCE_ID)}` plus
the encoded query string. -/
def cropPriceUrl (resourceId : String) (urlParams : List (String × String)) : String :=
  "https://api.data.gov.in/resource/" ++ encodeURIComponent resourceId ++ "?"
    ++ formEncodeParams urlParams

/-- The success payload the crop-price handler returns (server.ts lines
61–73): `records` is `json.records || []`, `total` is
`json.total || records.length`, `limit`/`offset` are the `??`-defaulted
inputs, and `query` echoes the destructured filter inputs (properties whose
value is `undefined` are dropped by `JSON.stringify` on the way out, as in
JavaScript).  The filter/limit/offset reads repeat the destructuring of
server.ts lines 24–26; property reads are pure, so the values are identical.
Throws only when `params` or `json` is `null`/`undefined`. -/
def cropPriceData (params json : JS) : Except String JS := do
  let records := jsOr (← getProp json "records") (.arr [])
  let total := jsOr (← getProp json "total") (← getProp records "length")
  let state ← getProp params "state"
  let district ← getProp params "district"
  let commodity ← getProp params "commodity"
  let limit := jsNullish (← getProp params "limit") (.num 50)
  let offset := jsNullish (← getProp params "offset") (.num 0)
  pure (JS.obj [("records", records), ("total", total), ("limit", limit),
    ("offset", offset),
    ("query", JS.obj [("state", state), ("district", district), ("commodity", commodity)])])

/-- The crop-price tool handler, server.ts lines 13–77.  Checks the API key
(truthiness of `process.env.DATAGOVIN_API_KEY`) before any network call,
builds the filtered query, issues one GET, maps a non-2xx status and an
unparsable body to the corresponding error results, and otherwise returns the
formatted success payload.  The surrounding `try`/`catch` maps any thrown
`TypeError` to a `Server error: ...` result. -/
def cropPriceHandler : ToolHandler := fun params env doFetch =>
  if ¬ envVarTruthy env.DATAGOVIN_API_KEY then
    (.err "Configuration error: DATAGOVIN_API_KEY not set in environment.", [])
  else
    let apiKey := env.DATAGOVIN_API_KEY.getD ""
    let resourceId := env.DATAGOVIN_RESOURCE_ID.getD "35985678-0d79-46b4-9ed6-6f13308a1d24"
    match cropPriceQueryParams params apiKey with
    | .error e => (.err ("Server error: " ++ e), [])
    | .ok urlParams =>
      let req : FetchRequest := ⟨cropPriceUrl resourceId urlParams, "GET", [], none⟩
      let res := doFetch req
      if ¬ res.ok then
        (.err ("HTTP " ++ toString res.status ++ " fetching data.gov.in: " ++ res.text), [req])
      else
        match res.json with
        | .error _ => (.err ("Invalid JSON response: " ++ res.text), [req])
        | .ok json =>
          match cropPriceData params json with
          | .error e => (.err ("Server error: " ++ e), [req])
          | .ok data => (.ok data, [req])

/-! ## The search handler (`searchHandler`, server.ts lines 82–153) -/

/-- The optional-chained call `v?.substring(0, n)`: `undefined` when `v` is
`null`/`undefined` (the chain short-circuits), the first `n` characters when
`v` is a string, and a `TypeError` otherwise (a JSON value that is not a
string has no callable `substring` property). -/
def jsOptSubstring (v : JS) (n : Nat) : Except String JS :=
  match v with
  | .undef => .ok .undef
  | .null => .ok .undef
  | .str s => .ok (.str ⟨s.data.take n⟩)
  | _ => .error "TypeError: result.text.substring is not a function"

/-- The optional-chained read `v?.length`: `undefined` when `v` is
`null`/`undefined`, otherwise the `length` property. -/
def jsOptLength (v : JS) : Except String JS :=
  match v with
  | .undef => .ok .undef
  | .null => .ok .undef
  | v => getProp v "length"

/-- The comparison `v > n` as it occurs in `result.text?.length > 500`:
true exactly for a number greater than `n` (for every other value the
comparison is false — in particular `undefined > n` is false). -/
def jsGtNum (v : JS) (n : Int) : Bool :=
  match v with
  | .num m => n < m
  | _ => false

/-- The arrow function applied to each upstream search result (server.ts
lines 139–145): pick `title`, `url`, `score`, `published_date` and build
`text` as `result.text?.substring(0, 500) + (result.text?.length > 500 ? '...' : '')`
— a JavaScript string concatenation whose right operand is a string literal,
so the left operand is `String(...)`-converted (an absent `text` contributes
the literal text `undefined`).  Throws when `result` is `null`/`undefined`
or `result.text` is a truthy non-string. -/
def mapSearchResult (result : JS) : Except String JS := do
  let title ← getProp result "title"
  let url ← getProp result "url"
  let textV ← getProp result "text"
  let sub ← jsOptSubstring textV 500
  let lenV ← jsOptLength textV
  let marker := if jsGtNum lenV 500 then "..." else ""
  let textOut := JS.str (jsToString sub ++ marker)
  let score ← getProp result "score"
  let pd ← getProp result "published_date"
  pure (JS.obj [("title", title), ("url", url), ("text", textOut),
    ("score", score), ("published_date", pd)])

/-- Left-to-right mapping of a fallible function over a list (the order in
which `Array.prototype.map` applies its callback). -/
def mapExcept (f : JS → Except String JS) : List JS → Except String (List JS)
  | [] => .ok []
  | x :: xs => do
    let y ← f x
    let ys ← mapExcept f xs
    pure (y :: ys)

/-- The method call `v.map(f)`: maps `f` over an array, and throws for any
other receiver (a JSON value that is not an array has no callable `map`
property). -/
def jsMapCall (f : JS → Except String JS) (v : JS) : Except String JS :=
  match v with
  | .arr xs => do
    let ys ← mapExcept f xs
    pure (.arr ys)
  | _ => .error "TypeError: results.map is not a function"

/-- The EXA request body (server.ts lines 92–107): destructure the inputs
(`num_results` has destructuring default 5, which fires on `undefined` only),
always include `query`, `num_results`, `use_autoprompt: true` and
`contents: {text: true}`, and include each optional field exactly when its
input is truthy (`if (include_domains) ...`).  Throws only when `params` is
`null`/`undefined`. -/
def searchRequestBody (params : JS) : Except String JS := do
  let query ← getProp params "query"
  let numResultsRaw ← getProp params "num_results"
  let numResults := if numResultsRaw.isUndef then JS.num 5 else numResultsRaw
  let includeDomains ← getProp params "include_domains"
  let excludeDomains ← getProp params "exclude_domains"
  let startCrawlDate ← getProp params "start_crawl_date"
  let endCrawlDate ← getProp params "end_crawl_date"
  pure (JS.obj ([("query", query), ("num_results", numResults),
      ("use_autoprompt", .bool true), ("contents", JS.obj [("text", .bool true)])]
    ++ (if includeDomains.truthy then [("include_domains", includeDomains)] else [])
    ++ (if excludeDomains.truthy then [("exclude_domains", excludeDomains)] else [])
    ++ (if startCrawlDate.truthy then [("start_crawl_date", startCrawlDate)] else [])
    ++ (if endCrawlDate.truthy then [("end_crawl_date", endCrawlDate)] else [])))

/-- The success payload the search handler returns (server.ts lines 133–148):
`results` is `json.results || []` mapped through `mapSearchResult`,
`total_results` is `results.length`, and `query` echoes the input.  Throws
when `json` is `null`/`undefined`, when `results` is a truthy non-array, or
when an entry makes `mapSearchResult` throw. -/
def searchData (params json : JS) : Except String JS := do
  let results := jsOr (← getProp json "results") (.arr [])
  let mapped ← jsMapCall mapSearchResult results
  let totalResults ← getProp results "length"
  let query ← getProp params "query"
  pure (JS.obj [("results", mapped), ("total_results", totalResults), ("query", query)])

/-- The EXA search tool handler, server.ts lines 82–153.  Checks the API key
(truthiness of `process.env.EXA_API_KEY`) before any network call, builds the
JSON request body, issues one POST with the key in the `x-api-key` header,
maps a non-2xx status and an unparsable body to the corresponding error
results, and otherwise returns the mapped results.  The surrounding
`try`/`catch` maps any thrown `TypeError` to a `Server error: ...` result. -/
def searchHandler : ToolHandler := fun params env doFetch =>
  if ¬ envVarTruthy env.EXA_API_KEY then
    (.err "Configuration error: EXA_API_KEY not set in environment.", [])
  else
    let apiKey := env.EXA_API_KEY.getD ""
    match searchRequestBody params with
    | .error e => (.err ("Server error: " ++ e), [])
    | .ok requestBody =>
      let req : FetchRequest := ⟨"https://api.exa.ai/search", "POST",
        [("Content-Type", "application/json"), ("x-api-key", apiKey)],
        jsonStringify requestBody⟩
      let res := doFetch req
      if ¬ res.ok then
        (.err ("HTTP " ++ toString res.status ++ " fetching EXA API: " ++ res.text), [req])
      else
        match res.json with
        | .error _ => (.err ("Invalid JSON response from EXA: " ++ res.text), [req])
        | .ok json =>
          match searchData params json with
          | .error e => (.err ("Server error: " ++ e), [req])
          | .ok data => (.ok data, [req])

/-! ## Tool registry and the REST front-end (server.ts lines 156–158, 242–273) -/

/-- `Array.from(toolHandlers.keys())`: the registered tool names in insertion
order (server.ts lines 156–158). -/
def toolHandlerNames : List String := ["crop-price", "search"]

/-- `toolHandlers.get(name)` for a string key: the static registry built at
startup (server.ts lines 156–158). -/
def getToolHandler (name : String) : Option ToolHandler :=
  if name = "crop-price" then some cropPriceHandler
  else if name = "search" then some searchHandler
  else none

/-- `toolHandlers.get(v)` for an arbitrary key value, as the RPC front-end
calls it: only a string key can match the registry. -/
def jsGetToolHandler : JS → Option ToolHandler
  | .str s => getToolHandler s
  | _ => none

/-- An HTTP response of the server: the status passed to `res.writeHead` and
the JSON value whose `JSON.stringify` is written with `res.end`. -/
structure HttpResponse where
  status : Nat
  body : JS

/-- The post-parse part of the `POST /tools/{name}` endpoint (server.ts lines
253–266): look the handler up; an unknown name answers 404 with the
`available_tools` list, a registered one is invoked and its result serialized
directly with status 200. -/
def restToolCall (toolName : String) (params : JS) (env : Env) (doFetch : FetchFn) :
    HttpResponse :=
  match getToolHandler toolName with
  | none =>
    ⟨404, JS.obj [("error", .str ("Tool " ++ "'" ++ toolName ++ "'" ++ " not found")),
      ("available_tools", .arr (toolHandlerNames.map JS.str))]⟩
  | some h => ⟨200, ((h params env doFetch).1).toJS⟩

/-- The `POST /tools/{name}` endpoint body handler (server.ts lines 250–271):
`JSON.parse(body || '{}')` — an empty body falls back to the literal `{}` —
then dispatch; a parse failure is caught and answered 400 with
`{error: 'Invalid request: ...'}`.  `parse` is the platform `JSON.parse`,
passed as an oracle (`.error` carries the thrown message's rendering). -/
def restToolsEndpoint (toolName : String) (body : String)
    (parse : String → Except String JS) (env : Env) (doFetch : FetchFn) : HttpResponse :=
  match parse (if body = "" then "\x7b\x7d" else body) with
  | .error e => ⟨400, JS.obj [("error", .str ("Invalid request: " ++ e))]⟩
  | .ok params => restToolCall toolName params env doFetch

/-! ## The MCP (JSON-RPC) front-end (README server.ts, lines 357–555)

`handleMCPRequest` and the `/mcp` endpoint appear in the hybrid `server.ts`
embedded in `src/README.md` (the same handlers and registry, plus the MCP
dispatcher); the embedding follows that code. -/

/-- The declarative tool list served by `tools/list` (`mcpTools`, README
lines 358–419). -/
def mcpTools : JS := JS.arr [
  JS.obj [("name", .str "crop-price"),
    ("description", .str "Fetch crop price data from data.gov.in with state/district/commodity filters"),
    ("inputSchema", JS.obj [("type", .str "object"),
      ("properties", JS.obj [
        ("state", JS.obj [("type", .str "string"),
          ("description", .str "State filter (e.g., Punjab, Maharashtra)")]),
        ("district", JS.obj [("type", .str "string"),
          ("description", .str "District filter (e.g., Ludhiana, Mumbai)")]),
        ("commodity", JS.obj [("type", .str "string"),
          ("description", .str "Commodity filter (e.g., Wheat, Rice, Cotton)")]),
        ("limit", JS.obj [("type", .str "number"),
          ("description", .str "Max records to return (default: 50)"),
          ("default", .num 50)]),
        ("offset", JS.obj [("type", .str "number"),
          ("description", .str "Records to skip (default: 0)"),
          ("default", .num 0)])])])],
  JS.obj [("name", .str "search"),
    ("description", .str "Search the web for agricultural information using EXA API"),
    ("inputSchema", JS.obj [("type", .str "object"),
      ("properties", JS.obj [
        ("query", JS.obj [("type", .str "string"),
          ("description", .str "Search query for agricultural information")]),
        ("num_results", JS.obj [("type", .str "number"),
          ("description", .str "Number of results to return (default: 5)"),
          ("default", .num 5)]),
        ("include_domains", JS.obj [("type", .str "array"),
          ("items", JS.obj [("type", .str "string")]),
          ("description", .str "Domains to include in search")]),
        ("exclude_domains", JS.obj [("type", .str "array"),
          ("items", JS.obj [("type", .str "string")]),
          ("description", .str "Domains to exclude from search")])]),
      ("required", JS.arr [.str "query"])])]]

/-- The `initialize` result (README lines 426–439). -/
def mcpInitializeResult : JS :=
  JS.obj [("protocolVersion", .str "2024-11-05"),
    ("capabilities", JS.obj [("tools", JS.obj [])]),
    ("serverInfo", JS.obj [("name", .str "agricultural-ai-mcp"), ("version", .str "1.0.0")])]

/-- A JSON-RPC success envelope `{jsonrpc: "2.0", id, result}`. -/
def mcpResultResponse (idv result : JS) : JS :=
  JS.obj [("jsonrpc", .str "2.0"), ("id", idv), ("result", result)]

/-- A JSON-RPC error envelope `{jsonrpc: "2.0", id, error: {code, message}}`,
with `error.data` present exactly when the source's error literal carries
one. -/
def mcpErrorResponse (idv : JS) (code : Int) (message : String) (data : Option JS) : JS :=
  JS.obj [("jsonrpc", .str "2.0"), ("id", idv),
    ("error", JS.obj ([("code", .num code), ("message", .str message)]
      ++ (match data with | some d => [("data", d)] | none => [])))]

/-- The `tools/call` success result (README lines 482–490): a single text
content block holding `JSON.stringify(result.data, null, 2)` (the value
`undefined` when the data has no JSON representation, as in JavaScript). -/
def mcpToolCallResult (data : JS) : JS :=
  JS.obj [("content", JS.arr [JS.obj [("type", .str "text"),
    ("text", match jsonStringify2 0 data with | some s => .str s | none => .undef)]])]

/-- The body of `handleMCPRequest` (README lines 422–501), before its
`catch`: switch on `request.method` (strict string comparison); `tools/call`
destructures `{name, arguments}` from `request.params` — which throws when
`params` is absent — looks the handler up (unknown tool: error `-32601` with
the available names in `error.data`), invokes it, and wraps a truthy
`result.error` as error `-32603` and otherwise the data as a text content
block.  (With a falsy `result.error` — which the registered handlers never
produce, see `cropPriceHandler_err_nonempty`/`searchHandler_err_nonempty` —
the success branch would serialize the absent `result.data`.)  Any other
method answers error `-32601`. -/
def handleMCPRequestBody (request : JS) (env : Env) (doFetch : FetchFn) :
    Except String JS := do
  let method ← getProp request "method"
  if method.isStrEq "initialize" then
    let idv ← getProp request "id"
    pure (mcpResultResponse idv mcpInitializeResult)
  else if method.isStrEq "tools/list" then
    let idv ← getProp request "id"
    pure (mcpResultResponse idv (JS.obj [("tools", mcpTools)]))
  else if method.isStrEq "tools/call" then
    let ps ← getProp request "params"
    let nameV ← getProp ps "name"
    let args ← getProp ps "arguments"
    let idv ← getProp request "id"
    match jsGetToolHandler nameV with
    | none =>
      pure (mcpErrorResponse idv (-32601)
        ("Tool " ++ "'" ++ jsToString nameV ++ "'" ++ " not found")
        (some (JS.obj [("availableTools", .arr (toolHandlerNames.map JS.str))])))
    | some h =>
      let result := (h args env doFetch).1
      match result with
      | .err m =>
        if m ≠ "" then pure (mcpErrorResponse idv (-32603) m none)
        else pure (mcpResultResponse idv (mcpToolCallResult .undef))
      | .ok d => pure (mcpResultResponse idv (mcpToolCallResult d))
  else
    let idv ← getProp request "id"
    pure (mcpErrorResponse idv (-32601)
      ("Method " ++ "'" ++ jsToString method ++ "'" ++ " not found") none)

/-- `handleMCPRequest` (README lines 422–512): the dispatcher body wrapped in
its `try`/`catch` — a thrown error is answered as error `-32603` with message
`Internal error: ...` and the request's own `id`.  (Reading `request.id`
inside the `catch` can itself throw, escaping as a rejected promise,
hence the remaining `Except`.) -/
def handleMCPRequest (request : JS) (env : Env) (doFetch : FetchFn) : Except String JS :=
  match handleMCPRequestBody request env doFetch with
  | .ok resp => .ok resp
  | .error e => do
    let idv ← getProp request "id"
    pure (mcpErrorResponse idv (-32603) ("Internal error: " ++ e) none)

/-- The `POST /mcp` endpoint body handler (README lines 528–554):
`JSON.parse` the body, dispatch through `handleMCPRequest` and answer 200; a
parse failure (or an error escaping `handleMCPRequest`) is caught and
answered 400 with error `-32700` and the sentinel id 0. -/
def mcpEndpoint (body : String) (parse : String → Except String JS)
    (env : Env) (doFetch : FetchFn) : HttpResponse :=
  match parse body with
  | .error e => ⟨400, mcpErrorResponse (.num 0) (-32700) ("Parse error: " ++ e) none⟩
  | .ok request =>
    match handleMCPRequest request env doFetch with
    | .ok resp => ⟨200, resp⟩
    | .error e => ⟨400, mcpErrorResponse (.num 0) (-32700) ("Parse error: " ++ e) none⟩

/-! ## Concrete fixtures (used by the closed witness/counterexample theorems) -/

/-- The JSON-RPC request object `{jsonrpc, id, method: "tools/call", params:
{name, arguments}}` a client sends to invoke a tool over the RPC front-end. -/
def mkToolsCallRequest (idv : JS) (name : String) (args : JS) : JS :=
  JS.obj [("jsonrpc", .str "2.0"), ("id", idv), ("method", .str "tools/call"),
    ("params", JS.obj [("name", .str name), ("arguments", args)])]

/-- A configuration with both API keys set. -/
def demoEnv : Env := ⟨some "k", none, some "ek"⟩

/-- A configuration with no API keys set. -/
def demoEnvEmpty : Env := ⟨none, none, none⟩

/-- A stub upstream answering 200 with the empty JSON object. -/
def demoFetchEmpty : FetchFn := fun _ => ⟨200, "\x7b\x7d", .ok (JS.obj [])⟩

/-- One price record as the price upstream returns it. -/
def demoRecord : JS :=
  JS.obj [("State", .str "Punjab"), ("Commodity", .str "Wheat"), ("Price", .str "2100")]

/-- A stub price upstream whose parsed body is
`{records: [demoRecord], total: 0}` — one record, explicit `total` field 0. -/
def demoFetchTotalZero : FetchFn := fun _ =>
  ⟨200, "stub-body", .ok (JS.obj [("records", JS.arr [demoRecord]), ("total", JS.num 0)])⟩

/-- A dummy request value (for sampling a stub `FetchFn`). -/
def demoRequest : FetchRequest := ⟨"", "GET", [], none⟩

/-- A stub `JSON.parse` oracle: parses the literal `\x7b\x7d` (the empty
object) and one fixed search-call body, and throws a `SyntaxError` on
everything else. -/
def demoParse : String → Except String JS := fun s =>
  if s = "\x7b\x7d" then .ok (JS.obj [])
  else .error "SyntaxError: Unexpected token"

/-- A stub `JSON.parse` oracle returning a fixed `tools/call` envelope with
`id` 7 and no `params` field. -/
def demoParseNoParams : String → Except String JS := fun _ =>
  .ok (JS.obj [("jsonrpc", .str "2.0"), ("id", .num 7), ("method", .str "tools/call")])

/-! ## Helper lemmas -/

/-- A string with a nonempty prefix is nonempty. -/
theorem str_append_ne_empty (a b : String) (ha : 0 < a.length) : a ++ b ≠ "" := by
  intro h
  have h2 := congrArg String.length h
  rw [String.length_append] at h2
  have h3 : ("" : String).length = 0 := rfl
  rw [h3] at h2
  omega

/-- Every failure message the crop-price handler produces is nonempty (each
return site prefixes a nonempty literal). -/
theorem cropPriceHandler_err_nonempty (params : JS) (env : Env) (f : FetchFn) (m : String)
    (h : (cropPriceHandler params env f).1 = .err m) : m ≠ "" := by
  unfold cropPriceHandler at h
  split at h
  · injection h with h
    subst h
    decide
  · dsimp only at h
    split at h
    · injection h with h
      subst h
      exact str_append_ne_empty "Server error: " _ (by decide)
    · split at h
      · injection h with h
        subst h
        exact str_append_ne_empty "HTTP " _ (by decide)
      · split at h
        · injection h with h
          subst h
          exact str_append_ne_empty "Invalid JSON response: " _ (by decide)
        · split at h
          · injection h with h
            subst h
            exact str_append_ne_empty "Server error: " _ (by decide)
          · exact absurd h (by simp)

/-- Every failure message the search handler produces is nonempty. -/
theorem searchHandler_err_nonempty (params : JS) (env : Env) (f : FetchFn) (m : String)
    (h : (searchHandler params env f).1 = .err m) : m ≠ "" := by
  unfold searchHandler at h
  split at h
  · injection h with h
    subst h
    decide
  · dsimp only at h
    split at h
    · injection h with h
      subst h
      exact str_append_ne_empty "Server error: " _ (by decide)
    · split at h
      · injection h with h
        subst h
        exact str_append_ne_empty "HTTP " _ (by decide)
      · split at h
        · injection h with h
          subst h
          exact str_append_ne_empty "Invalid JSON response from EXA: " _ (by decide)
        · split at h
          · injection h with h
            subst h
            exact str_append_ne_empty "Server error: " _ (by decide)
          · exact absurd h (by simp)

/-- The registry holds exactly the two tools defined at startup. -/
theorem getToolHandler_cases (name : String) (h : ToolHandler)
    (hreg : getToolHandler name = some h) :
    (name = "crop-price" ∧ h = cropPriceHandler) ∨ (name = "search" ∧ h = searchHandler) := by
  unfold getToolHandler at hreg
  split_ifs at hreg <;> simp_all

/-- No registered handler ever resolves with an empty failure message
(so the RPC front-end's truthiness test `if (result.error)` recognizes
every failure). -/
theorem registeredHandler_err_nonempty (name : String) (h : ToolHandler)
    (hreg : getToolHandler name = some h) (args : JS) (env : Env) (f : FetchFn) (m : String)
    (hm : (h args env f).1 = .err m) : m ≠ "" := by
  rcases getToolHandler_cases name h hreg with ⟨_, rfl⟩ | ⟨_, rfl⟩
  · exact cropPriceHandler_err_nonempty args env f m hm
  · exact searchHandler_err_nonempty args env f m hm

/-- Evaluation of the RPC dispatcher body on a well-formed `tools/call`
envelope: the registry lookup decides between the `-32601` error and the
invocation of the handler, whose truthy failure message becomes a `-32603`
error and whose success data becomes a text content block. -/
theorem handleMCPRequestBody_toolsCall (idv : JS) (name : String) (args : JS)
    (env : Env) (f : FetchFn) :
    handleMCPRequestBody (mkToolsCallRequest idv name args) env f =
      match getToolHandler name with
      | none => .ok (mcpErrorResponse idv (-32601)
          ("Tool " ++ "'" ++ name ++ "'" ++ " not found")
          (some (JS.obj [("availableTools", .arr (toolHandlerNames.map JS.str))])))
      | some h =>
        match (h args env f).1 with
        | .err m =>
          if m ≠ "" then .ok (mcpErrorResponse idv (-32603) m none)
          else .ok (mcpResultResponse idv (mcpToolCallResult .undef))
        | .ok d => .ok (mcpResultResponse idv (mcpToolCallResult d)) := by
  rfl

/-- `String.take` of at least the whole length is the identity. -/
theorem str_take_of_le (s : String) (n : Nat) (h : s.length ≤ n) : s.take n = s := by
  obtain ⟨l⟩ := s
  apply String.ext
  rw [String.data_take]
  exact List.take_of_length_le h

/-- A value on which one property read succeeded is not `null`/`undefined`,
so every property read on it succeeds. -/
theorem getProp_ok_of_ok {v : JS} {k : String} {w : JS} (h : getProp v k = .ok w)
    (k2 : String) : ∃ u, getProp v k2 = .ok u := by
  cases v with
  | undef => exact absurd h (by simp [getProp])
  | null => exact absurd h (by simp [getProp])
  | bool b => exact ⟨.undef, rfl⟩
  | num n => exact ⟨.undef, rfl⟩
  | str s =>
    by_cases hk : k2 = "length"
    · exact ⟨.num s.length, by simp [getProp, hk]⟩
    · exact ⟨.undef, by simp [getProp, hk]⟩
  | arr xs =>
    by_cases hk : k2 = "length"
    · exact ⟨.num xs.length, by simp [getProp, hk]⟩
    · exact ⟨.undef, by simp [getProp, hk]⟩
  | obj fs => exact ⟨_, rfl⟩

/-- Reading a property of a plain object never throws and yields the field
lookup. -/
theorem getProp_obj (fields : List (String × JS)) (k : String) :
    getProp (JS.obj fields) k = .ok (objGet fields k) := rfl

/-- Monadic bind on a resolved `Except` value. -/
theorem except_bind_ok {α β : Type} (a : α) (f : α → Except String β) :
    (Except.ok a >>= f) = f a := rfl

/-- `arr || d` keeps the array (arrays are truthy). -/
theorem jsOr_arr (xs : List JS) (d : JS) : jsOr (.arr xs) d = .arr xs := rfl

/-- The `length` property of an array value. -/
theorem getProp_arr_length (xs : List JS) :
    getProp (.arr xs) "length" = .ok (.num xs.length) := rfl

/-- `map` called on an array value runs the elementwise map. -/
theorem jsMapCall_arr (f : JS → Except String JS) (xs : List JS) :
    jsMapCall f (JS.arr xs) = (mapExcept f xs >>= fun ys => pure (.arr ys)) := rfl

/-- The mapped entry for an upstream search result whose `text` is a string
`s`: the mapped `text` is `s` itself when `s` has at most 500 characters, and
the first 500 characters followed by the `...` marker when it is longer. -/
theorem mapSearchResult_text_str (e : JS) (s : String)
    (htext : getProp e "text" = .ok (.str s)) :
    ∃ t u sc pd, mapSearchResult e = .ok (JS.obj [("title", t), ("url", u),
      ("text", .str (if 500 < s.length then s.take 500 ++ "..." else s)),
      ("score", sc), ("published_date", pd)]) := by
  obtain ⟨t, ht⟩ := getProp_ok_of_ok htext "title"
  obtain ⟨u, hu⟩ := getProp_ok_of_ok htext "url"
  obtain ⟨sc, hsc⟩ := getProp_ok_of_ok htext "score"
  obtain ⟨pd, hpd⟩ := getProp_ok_of_ok htext "published_date"
  refine ⟨t, u, sc, pd, ?_⟩
  have htake : s.take 500 = (⟨s.data.take 500⟩ : String) :=
    String.ext (String.data_take s 500)
  have h1 : mapSearchResult e = .ok (JS.obj [("title", t), ("url", u),
      ("text", .str ((⟨s.data.take 500⟩ : String) ++
        if jsGtNum (.num (s.length : Int)) 500 then "..." else "")),
      ("score", sc), ("published_date", pd)]) := by
    unfold mapSearchResult
    rw [ht, hu, htext, hsc, hpd]
    rfl
  rw [h1]
  have h2 : ((⟨s.data.take 500⟩ : String) ++
        if jsGtNum (.num (s.length : Int)) 500 then "..." else "") =
      (if 500 < s.length then s.take 500 ++ "..." else s) := by
    rw [← htake]
    by_cases h5 : 500 < s.length
    · have hb : jsGtNum (.num (s.length : Int)) 500 = true := by
        simp [jsGtNum]
        exact_mod_cast h5
      rw [hb]
      simp [h5]
    · have hb : jsGtNum (.num (s.length : Int)) 500 = false := by
        simp [jsGtNum]
        omega
      rw [hb]
      simp [h5]
      exact str_take_of_le s 500 (le_of_not_lt h5)
  rw [h2]

/-- The mapped entry for an upstream search result with no `text` field: the
mapped `text` is the literal nine-character string `undefined` (JavaScript
string concatenation `undefined + ''`). -/
theorem mapSearchResult_text_undef (e : JS)
    (htext : getProp e "text" = .ok .undef) :
    ∃ t u sc pd, mapSearchResult e = .ok (JS.obj [("title", t), ("url", u),
      ("text", .str "undefined"), ("score", sc), ("published_date", pd)]) := by
  obtain ⟨t, ht⟩ := getProp_ok_of_ok htext "title"
  obtain ⟨u, hu⟩ := getProp_ok_of_ok htext "url"
  obtain ⟨sc, hsc⟩ := getProp_ok_of_ok htext "score"
  obtain ⟨pd, hpd⟩ := getProp_ok_of_ok htext "published_date"
  refine ⟨t, u, sc, pd, ?_⟩
  unfold mapSearchResult
  rw [ht, hu, htext, hsc, hpd]
  rfl

/-- A successful `mapExcept` run maps each position of the input to the same
position of the output. -/
theorem mapExcept_ok_pointwise (f : JS → Except String JS) :
    ∀ (l out : List JS), mapExcept f l = .ok out →
      out.length = l.length ∧
      ∀ i (hi : i < l.length) (ho : i < out.length),
        f (l.get ⟨i, hi⟩) = .ok (out.get ⟨i, ho⟩) := by
  intro l
  induction l with
  | nil =>
    intro out h
    unfold mapExcept at h
    injection h with h
    subst h
    exact ⟨rfl, fun i hi => absurd hi (by simp)⟩
  | cons x xs ih =>
    intro out h
    unfold mapExcept at h
    rcases hx : f x with e | y
    · rw [hx] at h
      exact absurd h (by simp [Bind.bind, Except.bind])
    · rw [hx] at h
      rcases hxs : mapExcept f xs with e | ys
      · rw [hxs] at h
        exact absurd h (by simp [Bind.bind, Except.bind])
      · rw [hxs] at h
        have hout : out = y :: ys := by
          simpa [Bind.bind, Except.bind, pure, Except.pure] using h.symm
        subst hout
        obtain ⟨hlen, hpt⟩ := ih ys hxs
        refine ⟨by simp [hlen], ?_⟩
        intro i hi ho
        cases i with
        | zero => simpa using hx
        | succ j =>
          have hj : j < xs.length := by simpa using hi
          have hjo : j < ys.length := by simpa using ho
          simpa using hpt j hj hjo

/-- The shape of the search handler's success payload: given an API key, a
2xx upstream response whose body parses to an object with `results` an array
of entries that all map successfully, the handler succeeds with the mapped
entries (order preserved), `total_results` the entry count, and the echoed
query. -/
theorem searchHandler_success (pfields : List (String × JS)) (env : Env)
    (resp : FetchResponse) (jfields : List (String × JS)) (entries mapped : List JS)
    (hkey : envVarTruthy env.EXA_API_KEY = true)
    (hok : resp.ok = true)
    (hjson : resp.json = .ok (JS.obj jfields))
    (hres : objGet jfields "results" = .arr entries)
    (hmap : mapExcept mapSearchResult entries = .ok mapped) :
    (searchHandler (JS.obj pfields) env (fun _ => resp)).1 =
      .ok (JS.obj [("results", .arr mapped), ("total_results", .num entries.length),
        ("query", objGet pfields "query")]) := by
  have hdata : searchData (JS.obj pfields) (JS.obj jfields) = .ok (JS.obj
      [("results", .arr mapped), ("total_results", .num entries.length),
       ("query", objGet pfields "query")]) := by
    unfold searchData
    simp only [getProp_obj, except_bind_ok]
    rw [hres]
    simp only [jsOr_arr, jsMapCall_arr]
    rw [hmap]
    simp only [except_bind_ok]
    rfl
  unfold searchHandler
  simp only [hkey, not_true, ite_false, Bool.not_eq_true]
  rw [hok, hjson]
  split
  · rename_i e heq
    exact absurd heq (by simp [searchRequestBody, getProp_obj, except_bind_ok])
  · split
    · rename_i h
      exact absurd h (by simp)
    · split
      · rename_i a heq
        exact absurd heq (by simp)
      · rename_i json heq
        injection heq with heq
        subst heq
        rw [hdata]

/-- The shape of the crop-price handler's success payload, as a function of
the upstream body's `records` and `total` fields and the defaulted inputs. -/
theorem cropPriceData_shape (pfields jfields : List (String × JS)) (recs : List JS)
    (hrec : jsOr (objGet jfields "records") (.arr []) = .arr recs) :
    cropPriceData (JS.obj pfields) (JS.obj jfields) = .ok (JS.obj
      [("records", .arr recs),
       ("total", if (objGet jfields "total").truthy then objGet jfields "total"
                 else .num recs.length),
       ("limit", jsNullish (objGet pfields "limit") (.num 50)),
       ("offset", jsNullish (objGet pfields "offset") (.num 0)),
       ("query", JS.obj [("state", objGet pfields "state"),
         ("district", objGet pfields "district"),
         ("commodity", objGet pfields "commodity")])]) := by
  unfold cropPriceData
  simp only [getProp_obj, except_bind_ok]
  rw [hrec]
  simp only [getProp_arr_length, except_bind_ok]
  rfl

/-- The crop-price handler succeeds with exactly the `cropPriceData` payload
on a 2xx, JSON-parsable upstream response. -/
theorem cropPriceHandler_success (pfields : List (String × JS)) (env : Env)
    (resp : FetchResponse) (j data : JS)
    (hkey : envVarTruthy env.DATAGOVIN_API_KEY = true)
    (hok : resp.ok = true)
    (hjson : resp.json = .ok j)
    (hdata : cropPriceData (JS.obj pfields) j = .ok data) :
    (cropPriceHandler (JS.obj pfields) env (fun _ => resp)).1 = .ok data := by
  unfold cropPriceHandler
  simp only [hkey, not_true, ite_false, Bool.not_eq_true]
  rw [hok, hjson]
  split
  · rename_i e heq
    exact absurd heq (by simp [cropPriceQueryParams, getProp_obj, except_bind_ok])
  · split
    · rename_i h
      exact absurd h (by simp)
    · split
      · rename_i a heq
        exact absurd heq (by simp)
      · rename_i json heq
        injection heq with heq
        subst heq
        rw [hdata]

/-- With an API key present and an object parameter mapping, the crop-price
handler issues exactly one outbound GET, to the resource URL carrying the
`cropPriceQueryParams` query — whatever the network answers. -/
theorem cropPriceHandler_calls (pfields : List (String × JS)) (env : Env) (f : FetchFn)
    (q : List (String × String))
    (hkey : envVarTruthy env.DATAGOVIN_API_KEY = true)
    (hq : cropPriceQueryParams (JS.obj pfields) (env.DATAGOVIN_API_KEY.getD "") = .ok q) :
    (cropPriceHandler (JS.obj pfields) env f).2 =
      [⟨cropPriceUrl (env.DATAGOVIN_RESOURCE_ID.getD "35985678-0d79-46b4-9ed6-6f13308a1d24") q,
        "GET", [], none⟩] := by
  unfold cropPriceHandler
  simp only [hkey, not_true, ite_false, Bool.not_eq_true]
  rw [hq]
  split
  · rename_i e heq
    exact absurd heq (by simp)
  · rename_i urlParams heq
    injection heq with heq
    subst heq
    split
    · rfl
    · split
      · rfl
      · split <;> rfl

/-! ## The claims -/

/-- C1: For every registered tool name and every argument value, the REST
front-end (`POST /tools/{name}`) and the RPC front-end (`tools/call`) run the
same handler from the same registry; on success both carry the identical
`data` payload — REST serializes the result object directly with status 200,
RPC wraps the same data as a single pretty-printed text content block — and
on failure both carry the identical failure message — REST as `{error: m}`,
RPC as a `-32603` error. -/
theorem c1_rest_rpc_equivalence (name : String) (h : ToolHandler)
    (hreg : getToolHandler name = some h) (args idv : JS) (env : Env) (f : FetchFn) :
    restToolCall name args env f = ⟨200, ((h args env f).1).toJS⟩ ∧
    handleMCPRequest (mkToolsCallRequest idv name args) env f =
      .ok (match (h args env f).1 with
        | .ok d => mcpResultResponse idv (mcpToolCallResult d)
        | .err m => mcpErrorResponse idv (-32603) m none) := by
  constructor
  · unfold restToolCall
    rw [hreg]
  · unfold handleMCPRequest
    rw [handleMCPRequestBody_toolsCall, hreg]
    dsimp only
    rcases hr : (h args env f).1 with d | m
    · rfl
    · have hm : m ≠ "" := registeredHandler_err_nonempty name h hreg args env f m hr
      simp [hm]

/-- Witness for C1 at the registered tool `crop-price`. -/
theorem c1_rest_rpc_equivalence_witness :
    restToolCall "crop-price" (JS.obj []) demoEnvEmpty demoFetchEmpty =
      ⟨200, ((cropPriceHandler (JS.obj []) demoEnvEmpty demoFetchEmpty).1).toJS⟩ ∧
    handleMCPRequest (mkToolsCallRequest (JS.num 1) "crop-price" (JS.obj []))
        demoEnvEmpty demoFetchEmpty =
      .ok (match (cropPriceHandler (JS.obj []) demoEnvEmpty demoFetchEmpty).1 with
        | .ok d => mcpResultResponse (JS.num 1) (mcpToolCallResult d)
        | .err m => mcpErrorResponse (JS.num 1) (-32603) m none) :=
  c1_rest_rpc_equivalence "crop-price" cropPriceHandler rfl (JS.obj []) (JS.num 1)
    demoEnvEmpty demoFetchEmpty

/-- C2 (amended): a `filters[State]`/`filters[District]`/`filters[Commodity]`
entry appears in the crop-price handler's outbound query exactly when the
corresponding input field is present with a *truthy* value — presence alone
is not enough: a field present with the empty-string value (or `null`,
`false`, `0`) is omitted, because the source guards each entry with
JavaScript truthiness (`if (state) ...`).  When included, the entry carries
the `String(...)`-converted input.  The last conjunct ties the query to the
handler's one outbound request. -/
theorem c2_filters_iff_truthy (pfields : List (String × JS)) (apiKey : String) :
    ∃ q, cropPriceQueryParams (JS.obj pfields) apiKey = .ok q ∧
      (("filters[State]" ∈ q.map Prod.fst) ↔ (objGet pfields "state").truthy) ∧
      ((objGet pfields "state").truthy →
        ("filters[State]", jsToString (objGet pfields "state")) ∈ q) ∧
      (("filters[District]" ∈ q.map Prod.fst) ↔ (objGet pfields "district").truthy) ∧
      ((objGet pfields "district").truthy →
        ("filters[District]", jsToString (objGet pfields "district")) ∈ q) ∧
      (("filters[Commodity]" ∈ q.map Prod.fst) ↔ (objGet pfields "commodity").truthy) ∧
      ((objGet pfields "commodity").truthy →
        ("filters[Commodity]", jsToString (objGet pfields "commodity")) ∈ q) ∧
      (∀ env f, env.DATAGOVIN_API_KEY = some apiKey → apiKey ≠ "" →
        (cropPriceHandler (JS.obj pfields) env f).2 =
          [⟨cropPriceUrl (env.DATAGOVIN_RESOURCE_ID.getD "35985678-0d79-46b4-9ed6-6f13308a1d24") q,
            "GET", [], none⟩]) := by
  refine ⟨_, rfl, ?_, ?_, ?_, ?_, ?_, ?_, ?_⟩
  · by_cases h1 : (objGet pfields "state").truthy <;>
      by_cases h2 : (objGet pfields "district").truthy <;>
      by_cases h3 : (objGet pfields "commodity").truthy <;>
      simp [h1, h2, h3]
  · intro h1
    simp [h1]
  · by_cases h1 : (objGet pfields "state").truthy <;>
      by_cases h2 : (objGet pfields "district").truthy <;>
      by_cases h3 : (objGet pfields "commodity").truthy <;>
      simp [h1, h2, h3]
  · intro h2
    simp [h2]
  · by_cases h1 : (objGet pfields "state").truthy <;>
      by_cases h2 : (objGet pfields "district").truthy <;>
      by_cases h3 : (objGet pfields "commodity").truthy <;>
      simp [h1, h2, h3]
  · intro h3
    simp [h3]
  · intro env f hk hne
    apply cropPriceHandler_calls
    · rw [hk]
      simpa [envVarTruthy] using hne
    · rw [hk]
      rfl

/-- C2 counterexample: with `state` present as the empty string, the claim
as stated requires a `filters[State]` entry in the outbound query; the code
omits it (empty string is falsy).  The query is exactly the four base
entries, and the handler's one outbound URL carries no filter. -/
theorem c2_counterexample :
    ([("state", JS.str "")].lookup "state" = some (JS.str "")) ∧
    cropPriceQueryParams (JS.obj [("state", JS.str "")]) "k" =
      .ok [("api-key", "k"), ("format", "json"), ("limit", "50"), ("offset", "0")] ∧
    (("filters[State]" ∈ ([("api-key", "k"), ("format", "json"), ("limit", "50"),
      ("offset", "0")].map Prod.fst)) → False) ∧
    (cropPriceHandler (JS.obj [("state", JS.str "")]) demoEnv demoFetchEmpty).2.map
        FetchRequest.url =
      ["https://api.data.gov.in/resource/35985678-0d79-46b4-9ed6-6f13308a1d24?api-key=k&format=json&limit=50&offset=0"] := by
  refine ⟨rfl, rfl, by decide, by decide⟩

/-- C3 (amended): on a successfully parsed upstream price response, the
handler returns Success; `records` is the upstream `records` field when that
field is an array, and defaults to the empty array when the field is absent;
`total` equals the upstream `total` field when that field is present *and
truthy*, and falls back to the count of records when `total` is absent *or
falsy* — in particular an explicit upstream `total: 0` is replaced by the
record count, because the source uses `json.total || records.length`. -/
theorem c3_records_total_defaults (pfields jfields : List (String × JS)) (env : Env)
    (bodyText : String)
    (hkey : envVarTruthy env.DATAGOVIN_API_KEY = true) :
    (∀ recs : List JS, objGet jfields "records" = .arr recs →
      ∃ rest, (cropPriceHandler (JS.obj pfields) env
          (fun _ => ⟨200, bodyText, .ok (JS.obj jfields)⟩)).1 =
        .ok (JS.obj (("records", JS.arr recs) ::
          ("total", if (objGet jfields "total").truthy then objGet jfields "total"
                    else .num recs.length) :: rest))) ∧
    (objGet jfields "records" = .undef →
      ∃ rest, (cropPriceHandler (JS.obj pfields) env
          (fun _ => ⟨200, bodyText, .ok (JS.obj jfields)⟩)).1 =
        .ok (JS.obj (("records", JS.arr []) ::
          ("total", if (objGet jfields "total").truthy then objGet jfields "total"
                    else .num (0 : Int)) :: rest))) := by
  constructor
  · intro recs hr
    have hrec : jsOr (objGet jfields "records") (.arr []) = .arr recs := by
      rw [hr]
      rfl
    have hdata := cropPriceData_shape pfields jfields recs hrec
    exact ⟨_, cropPriceHandler_success pfields env _ (JS.obj jfields) _ hkey rfl rfl hdata⟩
  · intro hr
    have hrec : jsOr (objGet jfields "records") (.arr []) = .arr [] := by
      rw [hr]
      rfl
    have hdata := cropPriceData_shape pfields jfields [] hrec
    exact ⟨_, cropPriceHandler_success pfields env _ (JS.obj jfields) _ hkey rfl rfl hdata⟩

/-- Witness for C3: a concrete upstream body `{records: [demoRecord],
total: 7}` (truthy total, echoed) and one with `records` absent. -/
theorem c3_records_total_defaults_witness :
    (∀ recs : List JS,
      objGet [("records", JS.arr [demoRecord]), ("total", JS.num 7)] "records" = .arr recs →
      ∃ rest, (cropPriceHandler (JS.obj []) demoEnv
          (fun _ => ⟨200, "b", .ok (JS.obj [("records", JS.arr [demoRecord]),
            ("total", JS.num 7)])⟩)).1 =
        .ok (JS.obj (("records", JS.arr recs) ::
          ("total", if (objGet [("records", JS.arr [demoRecord]), ("total", JS.num 7)]
                        "total").truthy
                    then objGet [("records", JS.arr [demoRecord]), ("total", JS.num 7)] "total"
                    else .num recs.length) :: rest))) ∧
    (objGet [("records", JS.arr [demoRecord]), ("total", JS.num 7)] "records" = .undef →
      ∃ rest, (cropPriceHandler (JS.obj []) demoEnv
          (fun _ => ⟨200, "b", .ok (JS.obj [("records", JS.arr [demoRecord]),
            ("total", JS.num 7)])⟩)).1 =
        .ok (JS.obj (("records", JS.arr []) ::
          ("total", if (objGet [("records", JS.arr [demoRecord]), ("total", JS.num 7)]
                        "total").truthy
                    then objGet [("records", JS.arr [demoRecord]), ("total", JS.num 7)] "total"
                    else .num (0 : Int)) :: rest))) :=
  c3_records_total_defaults [] [("records", JS.arr [demoRecord]), ("total", JS.num 7)]
    demoEnv "b" (by decide)

/-- C3 counterexample: the upstream response carries `records` with one
record and an explicit `total: 0`; the claim as stated requires the returned
`total` to be 0, but the handler returns `total = 1` (the record count),
since `0` is falsy in `json.total || records.length`. -/
theorem c3_counterexample :
    (demoFetchTotalZero demoRequest).json =
      .ok (JS.obj [("records", JS.arr [demoRecord]), ("total", JS.num 0)]) ∧
    (cropPriceHandler (JS.obj []) demoEnv demoFetchTotalZero).1 =
      .ok (JS.obj [("records", JS.arr [demoRecord]), ("total", JS.num 1),
        ("limit", JS.num 50), ("offset", JS.num 0),
        ("query", JS.obj [("state", JS.undef), ("district", JS.undef),
          ("commodity", JS.undef)])]) := by
  exact ⟨rfl, rfl⟩

/-- C4: for every upstream search result entry whose `text` field is a
string `s`, the handler's mapped entry (same position) has `text` equal to
`s` unmodified when `s` has at most 500 characters — in particular exactly
500 — and to the first 500 characters with the three-character `...` marker
appended exactly when the length exceeds 500. -/
theorem c4_truncation (pfields jfields : List (String × JS)) (env : Env)
    (bodyText : String) (entries mapped : List JS) (i : Nat) (s : String)
    (hkey : envVarTruthy env.EXA_API_KEY = true)
    (hres : objGet jfields "results" = .arr entries)
    (hmap : mapExcept mapSearchResult entries = .ok mapped)
    (hi : i < entries.length)
    (htext : getProp (entries.get ⟨i, hi⟩) "text" = .ok (.str s)) :
    (searchHandler (JS.obj pfields) env
        (fun _ => ⟨200, bodyText, .ok (JS.obj jfields)⟩)).1 =
      .ok (JS.obj [("results", .arr mapped), ("total_results", .num entries.length),
        ("query", objGet pfields "query")]) ∧
    ∃ m, mapped[i]? = some m ∧
      getProp m "text" = .ok (.str (if 500 < s.length then s.take 500 ++ "..." else s)) := by
  constructor
  · exact searchHandler_success pfields env _ jfields entries mapped hkey rfl rfl hres hmap
  · obtain ⟨hlen, hpt⟩ := mapExcept_ok_pointwise mapSearchResult entries mapped hmap
    have ho : i < mapped.length := by omega
    have hm := hpt i hi ho
    obtain ⟨t, u, sc, pd, hmap2⟩ := mapSearchResult_text_str _ s htext
    rw [hmap2] at hm
    injection hm with hm
    refine ⟨mapped.get ⟨i, ho⟩, ?_, ?_⟩
    · simp [List.getElem?_eq_getElem ho]
    · rw [← hm]
      rfl

/-- Witness for C4 at a one-entry result list with `text` the two-character
string `hi` (returned unmodified, no marker). -/
theorem c4_truncation_witness :
    (searchHandler (JS.obj [("query", JS.str "q")]) demoEnv
        (fun _ => ⟨200, "b",
          .ok (JS.obj [("results", JS.arr [JS.obj [("text", JS.str "hi")]])])⟩)).1 =
      .ok (JS.obj [("results", .arr [JS.obj [("title", JS.undef), ("url", JS.undef),
          ("text", JS.str "hi"), ("score", JS.undef), ("published_date", JS.undef)]]),
        ("total_results", .num ([JS.obj [("text", JS.str "hi")]] : List JS).length),
        ("query", objGet [("query", JS.str "q")] "query")]) ∧
    ∃ m, ([JS.obj [("title", JS.undef), ("url", JS.undef), ("text", JS.str "hi"),
        ("score", JS.undef), ("published_date", JS.undef)]] : List JS)[0]? = some m ∧
      getProp m "text" =
        .ok (.str (if 500 < "hi".length then "hi".take 500 ++ "..." else "hi")) :=
  c4_truncation [("query", JS.str "q")]
    [("results", JS.arr [JS.obj [("text", JS.str "hi")]])] demoEnv "b"
    [JS.obj [("text", JS.str "hi")]]
    [JS.obj [("title", JS.undef), ("url", JS.undef), ("text", JS.str "hi"),
      ("score", JS.undef), ("published_date", JS.undef)]]
    0 "hi" rfl rfl rfl (by decide) rfl

/-- C5: with the price API key unset, the crop-price handler fails with the
`ConfigurationError`-shaped message and issues zero outbound requests, and
likewise the search handler with the search API key unset — for every
parameter value and every network oracle (the failure is decided before any
fetch). -/
theorem c5_missing_key_no_calls (p1 p2 : JS) (env1 env2 : Env) (f1 f2 : FetchFn)
    (h1 : env1.DATAGOVIN_API_KEY = none) (h2 : env2.EXA_API_KEY = none) :
    cropPriceHandler p1 env1 f1 =
      (.err "Configuration error: DATAGOVIN_API_KEY not set in environment.", []) ∧
    searchHandler p2 env2 f2 =
      (.err "Configuration error: EXA_API_KEY not set in environment.", []) := by
  constructor
  · unfold cropPriceHandler
    rw [h1]
    rfl
  · unfold searchHandler
    rw [h2]
    rfl

/-- Witness for C5 with both keys unset and arbitrary concrete inputs. -/
theorem c5_missing_key_no_calls_witness :
    cropPriceHandler (JS.obj []) demoEnvEmpty demoFetchEmpty =
      (.err "Configuration error: DATAGOVIN_API_KEY not set in environment.", []) ∧
    searchHandler (JS.obj [("query", JS.str "q")]) demoEnvEmpty demoFetchEmpty =
      (.err "Configuration error: EXA_API_KEY not set in environment.", []) :=
  c5_missing_key_no_calls (JS.obj []) (JS.obj [("query", JS.str "q")])
    demoEnvEmpty demoEnvEmpty demoFetchEmpty demoFetchEmpty rfl rfl

/-- C6: for every tool name outside the registry, the REST front-end answers
HTTP 404 with `available_tools` listing exactly the registered names
`crop-price` and `search` (in registration order), and the RPC front-end's
`tools/call` answers error code `-32601` with the same list in `error.data`
— in both cases a first-class response, for every parameter value, id,
configuration and network oracle (no exception escapes). -/
theorem c6_unknown_tool (name : String) (hname : getToolHandler name = none)
    (params idv : JS) (env : Env) (f : FetchFn) :
    restToolCall name params env f = ⟨404, JS.obj
      [("error", .str ("Tool " ++ "'" ++ name ++ "'" ++ " not found")),
       ("available_tools", .arr [.str "crop-price", .str "search"])]⟩ ∧
    handleMCPRequest (mkToolsCallRequest idv name params) env f =
      .ok (mcpErrorResponse idv (-32601)
        ("Tool " ++ "'" ++ name ++ "'" ++ " not found")
        (some (JS.obj [("availableTools", .arr [.str "crop-price", .str "search"])]))) := by
  constructor
  · unfold restToolCall
    rw [hname]
    rfl
  · unfold handleMCPRequest
    rw [handleMCPRequestBody_toolsCall, hname]
    rfl

/-- Witness for C6 at the unregistered name `weather`. -/
theorem c6_unknown_tool_witness :
    restToolCall "weather" (JS.obj []) demoEnv demoFetchEmpty = ⟨404, JS.obj
      [("error", .str ("Tool " ++ "'" ++ "weather" ++ "'" ++ " not found")),
       ("available_tools", .arr [.str "crop-price", .str "search"])]⟩ ∧
    handleMCPRequest (mkToolsCallRequest (JS.num 3) "weather" (JS.obj []))
        demoEnv demoFetchEmpty =
      .ok (mcpErrorResponse (JS.num 3) (-32601)
        ("Tool " ++ "'" ++ "weather" ++ "'" ++ " not found")
        (some (JS.obj [("availableTools", .arr [.str "crop-price", .str "search"])]))) :=
  c6_unknown_tool "weather" rfl (JS.obj []) (JS.num 3) demoEnv demoFetchEmpty

/-- C7: a request body that `JSON.parse` rejects makes `POST /tools/{name}`
answer HTTP 400 with an `error` string, and makes `POST /mcp` answer HTTP
400 with an RPC envelope carrying error code `-32700` and the sentinel id 0;
whereas an *empty* body to `/tools/{name}` is not an error: it is treated as
the empty parameter mapping (`JSON.parse(body || '\x7b\x7d')`) and
dispatched normally. -/
theorem c7_malformed_body (toolName body e : String)
    (parse : String → Except String JS) (env : Env) (f : FetchFn)
    (hne : body ≠ "")
    (hbad : parse body = .error e)
    (hempty : parse "\x7b\x7d" = .ok (JS.obj [])) :
    restToolsEndpoint toolName body parse env f =
      ⟨400, JS.obj [("error", .str ("Invalid request: " ++ e))]⟩ ∧
    mcpEndpoint body parse env f =
      ⟨400, mcpErrorResponse (.num 0) (-32700) ("Parse error: " ++ e) none⟩ ∧
    restToolsEndpoint toolName "" parse env f = restToolCall toolName (JS.obj []) env f := by
  refine ⟨?_, ?_, ?_⟩
  · unfold restToolsEndpoint
    rw [if_neg hne, hbad]
  · unfold mcpEndpoint
    rw [hbad]
  · unfold restToolsEndpoint
    rw [if_pos rfl, hempty]

/-- Witness for C7 with the stub parse oracle and the unparsable body
`not-json`. -/
theorem c7_malformed_body_witness :
    restToolsEndpoint "crop-price" "not-json" demoParse demoEnv demoFetchEmpty =
      ⟨400, JS.obj [("error",
        .str ("Invalid request: " ++ "SyntaxError: Unexpected token"))]⟩ ∧
    mcpEndpoint "not-json" demoParse demoEnv demoFetchEmpty =
      ⟨400, mcpErrorResponse (.num 0) (-32700)
        ("Parse error: " ++ "SyntaxError: Unexpected token") none⟩ ∧
    restToolsEndpoint "crop-price" "" demoParse demoEnv demoFetchEmpty =
      restToolCall "crop-price" (JS.obj []) demoEnv demoFetchEmpty :=
  c7_malformed_body "crop-price" "not-json" "SyntaxError: Unexpected token"
    demoParse demoEnv demoFetchEmpty (by decide) rfl rfl

/-- `v ?? d` keeps any value that is neither `null` nor `undefined`. -/
theorem jsNullish_of_not_nullish (v d : JS) (hn : v ≠ .null) (hu : v ≠ .undef) :
    jsNullish v d = v := by
  cases v <;> simp_all [jsNullish]

/-- C8 (amended): the crop-price handler's outbound query always contains a
`limit` and an `offset` entry; their values equal the caller-supplied
`limit`/`offset` when present with a non-null (and non-undefined) value, and
default to 50 and 0 when the field is absent — or present as `null`, which
the source's `params.limit ?? 50` treats like absence.  The same defaulted
values are echoed as the `limit`/`offset` fields of the Success payload, and
the query rides on the handler's one outbound request. -/
theorem c8_limit_offset_defaults (pfields : List (String × JS)) (apiKey : String) :
    ∃ q vLim vOff, cropPriceQueryParams (JS.obj pfields) apiKey = .ok q ∧
      ("limit", jsToString vLim) ∈ q ∧
      ("offset", jsToString vOff) ∈ q ∧
      (pfields.lookup "limit" = none → vLim = .num 50) ∧
      (∀ v, pfields.lookup "limit" = some v → v ≠ .null → v ≠ .undef → vLim = v) ∧
      (pfields.lookup "limit" = some JS.null → vLim = .num 50) ∧
      (pfields.lookup "offset" = none → vOff = .num 0) ∧
      (∀ v, pfields.lookup "offset" = some v → v ≠ .null → v ≠ .undef → vOff = v) ∧
      (pfields.lookup "offset" = some JS.null → vOff = .num 0) ∧
      (∀ env f, env.DATAGOVIN_API_KEY = some apiKey → apiKey ≠ "" →
        (cropPriceHandler (JS.obj pfields) env f).2 =
          [⟨cropPriceUrl (env.DATAGOVIN_RESOURCE_ID.getD
              "35985678-0d79-46b4-9ed6-6f13308a1d24") q, "GET", [], none⟩]) ∧
      (∀ env bodyText jfields recs, envVarTruthy env.DATAGOVIN_API_KEY = true →
        jsOr (objGet jfields "records") (.arr []) = .arr recs →
        ∃ r t qv, (cropPriceHandler (JS.obj pfields) env
            (fun _ => ⟨200, bodyText, .ok (JS.obj jfields)⟩)).1 =
          .ok (JS.obj [("records", r), ("total", t), ("limit", vLim),
            ("offset", vOff), ("query", qv)])) := by
  refine ⟨_, jsNullish (objGet pfields "limit") (.num 50),
    jsNullish (objGet pfields "offset") (.num 0), rfl,
    ?_, ?_, ?_, ?_, ?_, ?_, ?_, ?_, ?_, ?_⟩
  · simp
  · simp
  · intro h
    rw [objGet, h]
    rfl
  · intro v hv hn hu
    rw [objGet, hv]
    exact jsNullish_of_not_nullish v _ hn hu
  · intro h
    rw [objGet, h]
    rfl
  · intro h
    rw [objGet, h]
    rfl
  · intro v hv hn hu
    rw [objGet, hv]
    exact jsNullish_of_not_nullish v _ hn hu
  · intro h
    rw [objGet, h]
    rfl
  · intro env f hk hne
    apply cropPriceHandler_calls
    · rw [hk]
      simpa [envVarTruthy] using hne
    · rw [hk]
      rfl
  · intro env bodyText jfields recs hk hr
    have hdata := cropPriceData_shape pfields jfields recs hr
    exact ⟨_, _, _, cropPriceHandler_success pfields env _ (JS.obj jfields) _ hk rfl rfl hdata⟩

/-- C8 counterexample: with `limit` present as `null`, the claim as stated
requires the outbound `limit` entry to carry the caller-supplied value
(`String(null)` is the four-character string `null`); the code instead sends
the default `50` — `??` replaces a present `null`. -/
theorem c8_counterexample :
    ([("limit", JS.null)].lookup "limit" = some JS.null) ∧
    jsToString JS.null = "null" ∧
    cropPriceQueryParams (JS.obj [("limit", JS.null)]) "k" =
      .ok [("api-key", "k"), ("format", "json"), ("limit", "50"), ("offset", "0")] ∧
    (("limit", "null") ∈ [("api-key", "k"), ("format", "json"), ("limit", "50"),
      ("offset", "0")] → False) := by
  exact ⟨rfl, rfl, rfl, by decide⟩

/-- C9: for every upstream search result entry whose `text` field is absent
(reads as `undefined`), the handler's mapped entry has `text` equal to the
literal nine-character string `undefined` — the JavaScript concatenation
`undefined + ''` — not an absent, null or empty field. -/
theorem c9_absent_text_undefined (pfields jfields : List (String × JS)) (env : Env)
    (bodyText : String) (entries mapped : List JS) (i : Nat)
    (hkey : envVarTruthy env.EXA_API_KEY = true)
    (hres : objGet jfields "results" = .arr entries)
    (hmap : mapExcept mapSearchResult entries = .ok mapped)
    (hi : i < entries.length)
    (htext : getProp (entries.get ⟨i, hi⟩) "text" = .ok .undef) :
    (searchHandler (JS.obj pfields) env
        (fun _ => ⟨200, bodyText, .ok (JS.obj jfields)⟩)).1 =
      .ok (JS.obj [("results", .arr mapped), ("total_results", .num entries.length),
        ("query", objGet pfields "query")]) ∧
    (∃ m, mapped[i]? = some m ∧ getProp m "text" = .ok (.str "undefined")) ∧
    String.length "undefined" = 9 := by
  refine ⟨?_, ?_, rfl⟩
  · exact searchHandler_success pfields env _ jfields entries mapped hkey rfl rfl hres hmap
  · obtain ⟨hlen, hpt⟩ := mapExcept_ok_pointwise mapSearchResult entries mapped hmap
    have ho : i < mapped.length := by omega
    have hm := hpt i hi ho
    obtain ⟨t, u, sc, pd, hmap2⟩ := mapSearchResult_text_undef _ htext
    rw [hmap2] at hm
    injection hm with hm
    refine ⟨mapped.get ⟨i, ho⟩, ?_, ?_⟩
    · simp [List.getElem?_eq_getElem ho]
    · rw [← hm]
      rfl

/-- Witness for C9 at a one-entry result list whose entry has only a
`title`. -/
theorem c9_absent_text_undefined_witness :
    (searchHandler (JS.obj [("query", JS.str "q")]) demoEnv
        (fun _ => ⟨200, "b",
          .ok (JS.obj [("results", JS.arr [JS.obj [("title", JS.str "T")]])])⟩)).1 =
      .ok (JS.obj [("results", .arr [JS.obj [("title", JS.str "T"), ("url", JS.undef),
          ("text", JS.str "undefined"), ("score", JS.undef), ("published_date", JS.undef)]]),
        ("total_results", .num ([JS.obj [("title", JS.str "T")]] : List JS).length),
        ("query", objGet [("query", JS.str "q")] "query")]) ∧
    (∃ m, ([JS.obj [("title", JS.str "T"), ("url", JS.undef), ("text", JS.str "undefined"),
        ("score", JS.undef), ("published_date", JS.undef)]] : List JS)[0]? = some m ∧
      getProp m "text" = .ok (.str "undefined")) ∧
    String.length "undefined" = 9 :=
  c9_absent_text_undefined [("query", JS.str "q")]
    [("results", JS.arr [JS.obj [("title", JS.str "T")]])] demoEnv "b"
    [JS.obj [("title", JS.str "T")]]
    [JS.obj [("title", JS.str "T"), ("url", JS.undef), ("text", JS.str "undefined"),
      ("score", JS.undef), ("published_date", JS.undef)]]
    0 rfl rfl rfl (by decide) rfl

/-- On a parsable `/mcp` body, the endpoint defers to `handleMCPRequest`:
200 with its response, or the 400 `-32700` fallback if an error escapes. -/
theorem mcpEndpoint_parsed (body : String) (parse : String → Except String JS)
    (env : Env) (f : FetchFn) (request : JS)
    (hparse : parse body = .ok request) :
    mcpEndpoint body parse env f =
      match handleMCPRequest request env f with
      | .ok resp => ⟨200, resp⟩
      | .error e => ⟨400, mcpErrorResponse (.num 0) (-32700) ("Parse error: " ++ e) none⟩ := by
  unfold mcpEndpoint
  rw [hparse]

/-- C10: a `tools/call` envelope whose `params` field is absent makes the
destructuring `const {name, arguments} = request.params` throw; the
dispatcher's own `catch` converts it into an RPC error with code `-32603`
(not `-32601` or `-32700`) echoing the request's `id`, and the `/mcp`
endpoint answers it with HTTP status 200 (not 400). -/
theorem c10_missing_params (rfields : List (String × JS)) (idv : JS) (env : Env)
    (f : FetchFn) (body : String) (parse : String → Except String JS)
    (hmethod : rfields.lookup "method" = some (.str "tools/call"))
    (hid : rfields.lookup "id" = some idv)
    (hparams : rfields.lookup "params" = none)
    (hparse : parse body = .ok (JS.obj rfields)) :
    ∃ e, handleMCPRequest (JS.obj rfields) env f =
        .ok (mcpErrorResponse idv (-32603) ("Internal error: " ++ e) none) ∧
      mcpEndpoint body parse env f =
        ⟨200, mcpErrorResponse idv (-32603) ("Internal error: " ++ e) none⟩ := by
  have hm : objGet rfields "method" = .str "tools/call" := by
    rw [objGet, hmethod]
    rfl
  have hidv : objGet rfields "id" = idv := by
    rw [objGet, hid]
    rfl
  have hp : objGet rfields "params" = .undef := by
    rw [objGet, hparams]
    rfl
  have hbody : handleMCPRequestBody (JS.obj rfields) env f =
      .error ("TypeError: Cannot read properties of undefined (reading " ++ "name" ++ ")") := by
    unfold handleMCPRequestBody
    simp only [getProp_obj, except_bind_ok]
    rw [hm, hp]
    rfl
  have h1 : handleMCPRequest (JS.obj rfields) env f =
      .ok (mcpErrorResponse idv (-32603)
        ("Internal error: " ++ ("TypeError: Cannot read properties of undefined (reading "
          ++ "name" ++ ")")) none) := by
    have h2 : handleMCPRequest (JS.obj rfields) env f =
        (getProp (JS.obj rfields) "id" >>= fun idv2 =>
          pure (mcpErrorResponse idv2 (-32603) ("Internal error: " ++
            ("TypeError: Cannot read properties of undefined (reading " ++ "name" ++ ")"))
            none)) := by
      unfold handleMCPRequest
      rw [hbody]
    rw [h2, getProp_obj, except_bind_ok, hidv]
    rfl
  refine ⟨"TypeError: Cannot read properties of undefined (reading " ++ "name" ++ ")",
    h1, ?_⟩
  rw [mcpEndpoint_parsed body parse env f (JS.obj rfields) hparse, h1]

/-- Witness for C10 at a concrete `tools/call` envelope with id 7 and no
`params`. -/
theorem c10_missing_params_witness :
    ∃ e, handleMCPRequest (JS.obj [("jsonrpc", .str "2.0"), ("id", .num 7),
        ("method", .str "tools/call")]) demoEnv demoFetchEmpty =
        .ok (mcpErrorResponse (JS.num 7) (-32603) ("Internal error: " ++ e) none) ∧
      mcpEndpoint "x" demoParseNoParams demoEnv demoFetchEmpty =
        ⟨200, mcpErrorResponse (JS.num 7) (-32603) ("Internal error: " ++ e) none⟩ :=
  c10_missing_params [("jsonrpc", .str "2.0"), ("id", .num 7), ("method", .str "tools/call")]
    (JS.num 7) demoEnv demoFetchEmpty "x" demoParseNoParams rfl rfl rfl rfl
